import Mathlib

/-!
# JACAI front end: `src/web/app.js`

A shallow embedding of the `JacAI` class.  The instance field `currentPost` and the parts of
the document the class reads and writes are the fields of one record, `App`; every method is
a function on that record.  The things the script cannot decide itself (how `fetch` settles,
what the response body decodes to, whether the clipboard accepts a write, whether the legacy
copy command works) are arguments of the methods.

Conventions of the embedding:

* The elements the script names by a constant id or selector (`#generateForm` with its
  controls `topic`, `platform` and `style`, `#loading`, `#generateBtn`, `#stats`,
  `#captionText`, `#hashtagsText`, `#imageText`, `#resultsSection`, `#topic`, `.result-card`,
  `.input-card`) exist, so looking them up never yields `null`.  The copy button is looked up
  by a run-time string (`[data-copy="..."]`), so that lookup may fail.
* A decoded response body follows the wire format `{success, post?, error?}` with `post` an
  object of three strings and `error` a string; `success` is recorded by its truthiness.
* An `async` method is split at its `await`: what runs before it, and what runs once the
  awaited call has settled.  The composition of the two is the run in which nothing else
  happens in between.
* `setTimeout` is recorded as a pending timer; no timer is fired.
* `switchTab`, `formatTime` and the module-level styling code touch none of the state below
  and are left out.
-/

namespace JacAI

/-! ## Data -/

/-- The object `data` built in `generateContent` from the three controls of `#generateForm`. -/
structure FormData where
  topic : String
  platform : String
  style : String
deriving DecidableEq, Repr

/-- The object `result.post` of a response: `displayResults` reads exactly these fields. -/
structure Post where
  caption : String
  hashtags : String
  image_prompt : String
deriving DecidableEq, Repr

/-- The object `result` decoded from a response body.  `success` is the truthiness of
`result.success`; `post` and `error` are `none` when the field is missing. -/
structure ApiResult where
  success : Bool
  post : Option Post
  error : Option String
deriving DecidableEq, Repr

/-- How `await response.json()` settles: it throws, or it yields `null`, or an object. -/
inductive JsonBody where
  | invalid
  | null
  | value (result : ApiResult)
deriving DecidableEq, Repr

/-- How `await fetch(...)` settles: the promise rejects, or a response arrives. -/
inductive FetchOutcome where
  | rejected
  | response (body : JsonBody)
deriving DecidableEq, Repr

/-- How `navigator.clipboard.writeText` behaves: `navigator.clipboard` is missing (the call
itself throws before anything is written), or the returned promise rejects, or it resolves. -/
inductive ClipboardOutcome where
  | unavailable
  | rejects
  | resolves
deriving DecidableEq, Repr

/-- The value a method call evaluates to: `undefined` for a method that ends without a
`return` statement, a promise for an `async` method. -/
inductive JsValue where
  | undefined
  | promise
deriving DecidableEq, Repr

/-- An element of the document.  `id` stands for the identity of the object, which
`document.createElement` makes anew on every call; `content` is `innerHTML` for a `div` and
`value` for a `textarea`. -/
structure Node where
  id : Nat
  tag : String
  className : String
  content : String
deriving DecidableEq, Repr

/-- A button carrying a `data-copy` attribute. -/
structure CopyBtn where
  dataCopy : String
  innerHTML : String
  background : String
deriving DecidableEq, Repr

/-- The callbacks handed to `setTimeout`. -/
inductive TimerAction where
  | removeSuccessFlash
  | restoreCopyBtn (type : String) (originalText : String)
  | removeNode (id : Nat)
deriving DecidableEq, Repr

/-- A pending `setTimeout(action, delay)`. -/
structure Timer where
  delay : Nat
  action : TimerAction
deriving DecidableEq, Repr

/-- Calls that leave the page, in the order they are made. -/
inductive Effect where
  | fetch (url : String) (method : String) (contentType : String) (body : FormData)
  | consoleError
  | writeText (text : String)
  | execCommandCopy (selection : String)
  | scrollIntoView
deriving DecidableEq, Repr

/-- The `JacAI` instance together with the part of the document it works on. -/
structure App where
  /-- Field `this.currentPost`; `none` is `null` or `undefined`. -/
  currentPost : Option Post
  /-- Current values of the controls of `#generateForm`. -/
  form : FormData
  /-- Default values of the controls, restored by `form.reset()`. -/
  formDefaults : FormData
  /-- Value of `#loading.style.display`. -/
  loadingDisplay : String
  /-- Value of `#generateBtn.disabled`. -/
  generateBtnDisabled : Bool
  /-- Value of `#generateBtn.innerHTML`. -/
  generateBtnHTML : String
  /-- Value of `#stats.innerHTML`. -/
  statsHTML : String
  /-- Value of `#captionText.textContent`. -/
  captionText : String
  /-- Value of `#hashtagsText.textContent`. -/
  hashtagsText : String
  /-- Value of `#imageText.textContent`. -/
  imageText : String
  /-- Value of `#resultsSection.style.display`. -/
  resultsDisplay : String
  /-- Class list of the first `.result-card`. -/
  resultCardClasses : List String
  /-- Children appended to the first `.input-card` by `showError`. -/
  inputCard : List Node
  /-- Children of `document.body`. -/
  body : List Node
  /-- The elements with a `data-copy` attribute, in document order. -/
  copyBtns : List CopyBtn
  /-- Id of the focused element. -/
  activeElement : String
  /-- Content of the system clipboard. -/
  clipboard : String
  /-- Identity given to the next created element. -/
  nextId : Nat
  /-- Pending timers. -/
  timers : List Timer
  /-- Calls made so far. -/
  log : List Effect
deriving DecidableEq, Repr

/-! ## View helpers -/

/-- Markup written by `updateStats`. -/
def statsMarkup (message : String) : String :=
  "<span><i class=\"fas fa-clock\"></i> " ++ message ++ "</span>"

/-- Markup written by `showError`. -/
def errorMarkup (message : String) : String :=
  "\n            <div style=\"\n" ++
  "                background: var(--error);\n" ++
  "                color: white;\n" ++
  "                padding: 1rem 1.5rem;\n" ++
  "                border-radius: 0.5rem;\n" ++
  "                margin: 1rem 0;\n" ++
  "                display: flex;\n" ++
  "                align-items: center;\n" ++
  "                gap: 0.5rem;\n" ++
  "                animation: slideDown 0.3s ease-out;\n" ++
  "            \">\n" ++
  "                <i class=\"fas fa-exclamation-triangle\"></i>\n" ++
  "                " ++ message ++ "\n" ++
  "            </div>\n" ++
  "        "

/-- Method `updateStats(message)`. -/
def updateStats (message : String) (s : App) : App :=
  { s with statsHTML := statsMarkup message }

/-- Method `showLoading()`. -/
def showLoading (s : App) : App :=
  { s with
    loadingDisplay := "block"
    generateBtnDisabled := true
    generateBtnHTML := "<i class=\"fas fa-spinner fa-spin\"></i> Generating..." }

/-- Method `hideLoading()`. -/
def hideLoading (s : App) : App :=
  { s with
    loadingDisplay := "none"
    generateBtnDisabled := false
    generateBtnHTML := "<i class=\"fas fa-rocket\"></i> <span>Generate Content</span>" }

/-- Method `showError(message)`: a fresh `div` is appended to `.input-card` and its removal
is scheduled five seconds later. -/
def showError (message : String) (s : App) : App :=
  let errorDiv : Node :=
    { id := s.nextId, tag := "div", className := "error-notification",
      content := errorMarkup message }
  { s with
    nextId := s.nextId + 1
    inputCard := s.inputCard ++ [errorDiv]
    timers := s.timers ++ [{ delay := 5000, action := TimerAction.removeNode errorDiv.id }] }

/-- The call `classList.add(name)`. -/
def classListAdd (name : String) (classes : List String) : List String :=
  if name ∈ classes then classes else classes ++ [name]

/-- Method `displayResults(post)`.  Reading `post.caption` throws when `post` is `null` or
`undefined`; that is the result `none`, and nothing has been written at that point. -/
def displayResults (post : Option Post) (s : App) : Option App :=
  match post with
  | none => none
  | some p =>
    some { s with
      captionText := p.caption
      hashtagsText := p.hashtags
      imageText := p.image_prompt
      resultsDisplay := "block"
      log := s.log ++ [Effect.scrollIntoView]
      resultCardClasses := classListAdd "success-flash" s.resultCardClasses
      timers := s.timers ++ [{ delay := 600, action := TimerAction.removeSuccessFlash }] }

/-! ## Request controller -/

/-- The expression `result.error || 'Failed to generate content'`: a missing field and the
empty string are both falsy. -/
def errorOrDefault (error : Option String) : String :=
  match error with
  | some message => if message = "" then "Failed to generate content" else message
  | none => "Failed to generate content"

/-- The part of `generateContent()` that runs before the first `await`: the form is read
into `data`, the loading state is shown, and `fetch` is called with `data` as body.  The
second component is `data`, which the rest of the method keeps using. -/
def generateContentStart (s : App) : App × FormData :=
  let data : FormData :=
    { topic := s.form.topic, platform := s.form.platform, style := s.form.style }
  let s1 := showLoading s
  let s2 := updateStats "Generating content..." s1
  ({ s2 with log := s2.log ++ [Effect.fetch "/api/generate" "POST" "application/json" data] },
   data)

/-- The `try` block of `generateContent()` after `fetch` has settled.  The result is the
state reached and whether the block threw. -/
def generateContentTry (data : FormData) (outcome : FetchOutcome) (s : App) : App × Bool :=
  match outcome with
  | FetchOutcome.rejected => (s, true)
  | FetchOutcome.response JsonBody.invalid => (s, true)
  | FetchOutcome.response JsonBody.null => (s, true)
  | FetchOutcome.response (JsonBody.value result) =>
    if result.success then
      let s1 := { s with currentPost := result.post }
      match displayResults result.post s1 with
      | none => (s1, true)
      | some s2 =>
        (updateStats ("Generated for " ++ data.platform ++ " • " ++ data.style ++ " style") s2,
         false)
    else
      (updateStats "Generation failed" (showError (errorOrDefault result.error) s), false)

/-- The `catch` block of `generateContent()`. -/
def generateContentCatch (s : App) : App :=
  let s1 := { s with log := s.log ++ [Effect.consoleError] }
  updateStats "Connection error" (showError "Network error. Please try again." s1)

/-- The part of `generateContent()` that runs once `fetch` has settled: `try`, `catch` when
the `try` block threw, and `finally`. -/
def generateContentSettle (data : FormData) (outcome : FetchOutcome) (s : App) : App :=
  let r := generateContentTry data outcome s
  let s1 := if r.2 then generateContentCatch r.1 else r.1
  hideLoading s1

/-- Method `generateContent()`, run from the call to its settlement. -/
def generateContent (outcome : FetchOutcome) (s : App) : App :=
  let r := generateContentStart s
  generateContentSettle r.2 outcome r.1

/-- Method `regenerateContent()`.  The call `this.generateContent()` runs up to its `await`
and its promise is dropped; the method has no `return` statement, so on both paths the call
evaluates to `undefined`, the second component. -/
def regenerateContent (s : App) : App × JsValue :=
  if s.currentPost.isSome then
    ((generateContentStart s).1, JsValue.undefined)
  else
    (s, JsValue.undefined)

/-- Method `newContent()`. -/
def newContent (s : App) : App :=
  let s1 := { s with resultsDisplay := "none" }
  let s2 := { s1 with form := s1.formDefaults }
  let s3 := { s2 with activeElement := "topic" }
  let s4 := { s3 with currentPost := none }
  updateStats "Ready to generate" s4

/-- Method `bindEvents()`: it only registers listeners, which changes no field of `App`. -/
def bindEvents (s : App) : App := s

/-- Method `init()`. -/
def init (s : App) : App :=
  updateStats "Ready to generate" (bindEvents s)

/-- The constructor of `JacAI`, run on a loaded page. -/
def constructor (page : App) : App :=
  init { page with currentPost := none }

/-! ## Clipboard copier -/

/-- The `switch` of `copyContent(type)`: the text to copy. -/
def copyText (type : String) (s : App) : String :=
  if type = "caption" then s.captionText
  else if type = "hashtags" then s.hashtagsText
  else if type = "image" then s.imageText
  else ""

/-- The call `parent.removeChild(node)` on a list of children. -/
def removeChild (id : Nat) (children : List Node) : List Node :=
  children.filter (fun n => n.id != id)

/-- Method `fallbackCopy(text)`.  `execOk` tells whether `document.execCommand('copy')`
puts the selection on the clipboard. -/
def fallbackCopy (text : String) (execOk : Bool) (s : App) : App :=
  let textArea : Node := { id := s.nextId, tag := "textarea", className := "", content := text }
  let s1 := { s with nextId := s.nextId + 1 }
  let s2 := { s1 with body := s1.body ++ [textArea] }
  let s3 := { s2 with
    log := s2.log ++ [Effect.execCommandCopy textArea.content]
    clipboard := if execOk then textArea.content else s2.clipboard }
  { s3 with body := removeChild textArea.id s3.body }

/-- The call `document.querySelector('[data-copy="type"]')`. -/
def findCopyBtn (type : String) (btns : List CopyBtn) : Option CopyBtn :=
  btns.find? (fun b => b.dataCopy = type)

/-- Writes `f b` in place of the first button `b` whose `data-copy` is `type`. -/
def updateCopyBtn (type : String) (f : CopyBtn → CopyBtn) : List CopyBtn → List CopyBtn
  | [] => []
  | b :: rest => if b.dataCopy = type then f b :: rest else b :: updateCopyBtn type f rest

/-- Method `showCopySuccess(type)`.  When no element matches, reading `btn.innerHTML`
throws; that is the result `none`, and nothing has been written at that point. -/
def showCopySuccess (type : String) (s : App) : Option App :=
  match findCopyBtn type s.copyBtns with
  | none => none
  | some btn =>
    let originalText := btn.innerHTML
    some { s with
      copyBtns := updateCopyBtn type
        (fun b => { b with
          innerHTML := "<i class=\"fas fa-check\"></i> Copied!"
          background := "var(--success)" }) s.copyBtns
      timers := s.timers ++
        [{ delay := 2000, action := TimerAction.restoreCopyBtn type originalText }] }

/-- The state an `async` method ends in, and whether its promise rejected. -/
structure Settled where
  app : App
  rejected : Bool
deriving DecidableEq, Repr

/-- The `catch` block of `copyContent(type)`. -/
def copyContentCatch (type : String) (text : String) (execOk : Bool) (s : App) : Settled :=
  let s1 := fallbackCopy text execOk s
  match showCopySuccess type s1 with
  | some s2 => { app := s2, rejected := false }
  | none => { app := s1, rejected := true }

/-- Method `copyContent(type)`, run from the call to its settlement. -/
def copyContent (type : String) (clip : ClipboardOutcome) (execOk : Bool) (s : App) : Settled :=
  let text := copyText type s
  match clip with
  | ClipboardOutcome.unavailable => copyContentCatch type text execOk s
  | ClipboardOutcome.rejects =>
    copyContentCatch type text execOk { s with log := s.log ++ [Effect.writeText text] }
  | ClipboardOutcome.resolves =>
    let s1 := { s with log := s.log ++ [Effect.writeText text], clipboard := text }
    match showCopySuccess type s1 with
    | some s2 => { app := s2, rejected := false }
    | none => copyContentCatch type text execOk s1

/-! ## Observations -/

/-- The session of the specification as read off the page: the last result is
`currentPost`, a request is in flight while `#generateBtn` is disabled, and the status
message is what `#stats` shows. -/
structure Session where
  lastResult : Option Post
  requestInFlight : Bool
  statusMessage : String
deriving DecidableEq, Repr

/-- The session of a state. -/
def session (s : App) : Session :=
  { lastResult := s.currentPost
    requestInFlight := s.generateBtnDisabled
    statusMessage := s.statsHTML }

/-- The requests handed to `fetch` so far, oldest first. -/
def requestsSent (s : App) : List FormData :=
  s.log.filterMap (fun e =>
    match e with
    | Effect.fetch _ _ _ body => some body
    | _ => none)

/-- The number of times the legacy copy command has run. -/
def execCopyCount (s : App) : Nat :=
  s.log.countP (fun e =>
    match e with
    | Effect.execCommandCopy _ => true
    | _ => false)

/-- The selections the legacy copy command has been run on so far. -/
def selectionsCopied (s : App) : List String :=
  s.log.filterMap (fun e =>
    match e with
    | Effect.execCommandCopy selection => some selection
    | _ => none)

/-- The texts handed to `navigator.clipboard.writeText` so far. -/
def textsWritten (s : App) : List String :=
  s.log.filterMap (fun e =>
    match e with
    | Effect.writeText text => some text
    | _ => none)

/-- A page as it may be loaded: empty result fields, one child in the body, three copy
buttons. -/
def samplePage : App :=
  { currentPost := none
    form := { topic := "", platform := "instagram", style := "casual" }
    formDefaults := { topic := "", platform := "instagram", style := "casual" }
    loadingDisplay := ""
    generateBtnDisabled := false
    generateBtnHTML := "<i class=\"fas fa-rocket\"></i> <span>Generate Content</span>"
    statsHTML := ""
    captionText := ""
    hashtagsText := ""
    imageText := ""
    resultsDisplay := "none"
    resultCardClasses := ["result-card"]
    inputCard := []
    body := [{ id := 0, tag := "div", className := "container", content := "" }]
    copyBtns :=
      [{ dataCopy := "caption", innerHTML := "Copy", background := "" },
       { dataCopy := "hashtags", innerHTML := "Copy", background := "" },
       { dataCopy := "image", innerHTML := "Copy", background := "" }]
    activeElement := ""
    clipboard := ""
    nextId := 1
    timers := []
    log := [] }

/-- The user types into the form. -/
def editForm (form : FormData) (s : App) : App :=
  { s with form := form }


/-- A response `{success: true, post: {caption: "C", hashtags: "#h", image_prompt: "P"}}`. -/
def sampleSuccess : FetchOutcome :=
  FetchOutcome.response
    (JsonBody.value
      { success := true
        post := some { caption := "C", hashtags := "#h", image_prompt := "P" }
        error := none })

/-- The sample page after one successful generation followed by `newContent()`. -/
def afterReset : App :=
  newContent (generateContent sampleSuccess (constructor samplePage))

/-- The sample page after a successful generation for the topic "dogs", with the form then
edited to the topic "cats" on another platform and in another style. -/
def editedAfterSubmit : App :=
  editForm { topic := "cats", platform := "twitter", style := "funny" }
    (generateContent sampleSuccess
      (editForm { topic := "dogs", platform := "instagram", style := "casual" }
        (constructor samplePage)))

/-- The sample page with form values that name no platform and no style. -/
def unlistedRequestPage : App :=
  editForm { topic := "launch", platform := "not-a-platform", style := "not-a-style" }
    (constructor samplePage)

/-- The button `btn` as `showCopySuccess` leaves it. -/
def copiedBtn (btn : CopyBtn) : CopyBtn :=
  { btn with
    innerHTML := "<i class=\"fas fa-check\"></i> Copied!"
    background := "var(--success)" }

/-! ## Lemmas on the helpers -/

/-- A button rewritten by `showCopySuccess` keeps its `data-copy`, so the same selector
finds it afterwards. -/
theorem findCopyBtn_updateCopyBtn (type : String) (f : CopyBtn → CopyBtn)
    (hf : ∀ b, (f b).dataCopy = b.dataCopy) (btns : List CopyBtn) :
    findCopyBtn type (updateCopyBtn type f btns) = (findCopyBtn type btns).map f := by
  induction btns with
  | nil => simp [findCopyBtn, updateCopyBtn]
  | cons b rest ih =>
    by_cases hb : b.dataCopy = type
    · simp [findCopyBtn, updateCopyBtn, hb, hf]
    · have hfb : ¬ (f b).dataCopy = type := by rw [hf]; exact hb
      simp only [findCopyBtn] at ih
      simp [findCopyBtn, updateCopyBtn, hb, ih]

/-- Removing a node that was appended to children none of which shares its identity gives
the children back. -/
theorem removeChild_append_fresh (node : Node) (children : List Node)
    (hfresh : ∀ n ∈ children, n.id < node.id) :
    removeChild node.id (children ++ [node]) = children := by
  have hkeep : children.filter (fun n => n.id != node.id) = children := by
    rw [List.filter_eq_self]
    intro n hn
    have := hfresh n hn
    simp
    omega
  simp [removeChild, List.filter_append, hkeep]

/-- What `showCopySuccess` does when the page has the button. -/
theorem showCopySuccess_of_find (type : String) (s : App) (btn : CopyBtn)
    (hbtn : findCopyBtn type s.copyBtns = some btn) :
    ∃ s1, showCopySuccess type s = some s1 ∧
      s1.log = s.log ∧ s1.body = s.body ∧ s1.clipboard = s.clipboard ∧
      s1.currentPost = s.currentPost ∧
      findCopyBtn type s1.copyBtns
        = some { btn with
            innerHTML := "<i class=\"fas fa-check\"></i> Copied!"
            background := "var(--success)" } := by
  have hrun : showCopySuccess type s
      = some { s with
          copyBtns := updateCopyBtn type
            (fun b => { b with
              innerHTML := "<i class=\"fas fa-check\"></i> Copied!"
              background := "var(--success)" }) s.copyBtns
          timers := s.timers ++
            [{ delay := 2000, action := TimerAction.restoreCopyBtn type btn.innerHTML }] } := by
    simp [showCopySuccess, hbtn]
  refine ⟨_, hrun, rfl, rfl, rfl, rfl, ?_⟩
  have hfind := findCopyBtn_updateCopyBtn type
    (fun b : CopyBtn => { b with
      innerHTML := "<i class=\"fas fa-check\"></i> Copied!"
      background := "var(--success)" }) (fun _ => rfl) s.copyBtns
  rw [hbtn] at hfind
  exact hfind

/-- What `fallbackCopy` does on a page whose body holds no node with the next identity. -/
theorem fallbackCopy_spec (text : String) (execOk : Bool) (s : App)
    (hfresh : ∀ n ∈ s.body, n.id < s.nextId) :
    (fallbackCopy text execOk s).body = s.body ∧
    (fallbackCopy text execOk s).log = s.log ++ [Effect.execCommandCopy text] ∧
    (fallbackCopy text execOk s).copyBtns = s.copyBtns ∧
    (fallbackCopy text execOk s).currentPost = s.currentPost := by
  refine ⟨?_, rfl, rfl, rfl⟩
  exact removeChild_append_fresh
    { id := s.nextId, tag := "textarea", className := "", content := text } s.body hfresh

/-- No run of `generateContent` touches the children of the body, and the identity counter
never goes down, so the body keeps holding only identities below the counter. -/
theorem fresh_generateContent (outcome : FetchOutcome) (s : App)
    (hfresh : ∀ n ∈ s.body, n.id < s.nextId) :
    ∀ n ∈ (generateContent outcome s).body, n.id < (generateContent outcome s).nextId := by
  have hbody : (generateContent outcome s).body = s.body := by
    rcases outcome with _ | body
    · rfl
    · rcases body with _ | _ | ⟨success, post, error⟩
      · rfl
      · rfl
      · cases success <;> cases post <;> rfl
  have hnext : s.nextId ≤ (generateContent outcome s).nextId := by
    rcases outcome with _ | body
    · simp [generateContent, generateContentStart, generateContentSettle,
        generateContentTry, generateContentCatch, showError, showLoading, hideLoading,
        updateStats]
    · rcases body with _ | _ | ⟨success, post, error⟩
      · simp [generateContent, generateContentStart, generateContentSettle,
          generateContentTry, generateContentCatch, showError, showLoading, hideLoading,
          updateStats]
      · simp [generateContent, generateContentStart, generateContentSettle,
          generateContentTry, generateContentCatch, showError, showLoading, hideLoading,
          updateStats]
      · cases success <;> cases post <;>
          simp [generateContent, generateContentStart, generateContentSettle,
            generateContentTry, generateContentCatch, displayResults, showError,
            showLoading, hideLoading, updateStats]
  intro n hn
  rw [hbody] at hn
  exact Nat.lt_of_lt_of_le (hfresh n hn) hnext

/-- The fallback leaves the body as it found it and moves the identity counter up, so the
body keeps holding only identities below the counter. -/
theorem fresh_fallbackCopy (text : String) (execOk : Bool) (s : App)
    (hfresh : ∀ n ∈ s.body, n.id < s.nextId) :
    ∀ n ∈ (fallbackCopy text execOk s).body, n.id < (fallbackCopy text execOk s).nextId := by
  intro n hn
  rw [(fallbackCopy_spec text execOk s hfresh).1] at hn
  exact Nat.lt_succ_of_lt (hfresh n hn)

/-! ## The request lifecycle -/

/-- C1: whatever state `generateContent` starts from and however the generation call
settles, `showLoading` raises the in-flight flag (button disabled, loading indicator shown)
before the call and `hideLoading`, run in `finally`, has cleared it once the method has
settled. -/
theorem C1_in_flight_false_after_settle (s : App) (data : FormData) (outcome : FetchOutcome) :
    (generateContentStart s).1.generateBtnDisabled = true ∧
    (generateContentStart s).1.loadingDisplay = "block" ∧
    (generateContentSettle data outcome s).generateBtnDisabled = false ∧
    (generateContentSettle data outcome s).loadingDisplay = "none" ∧
    (session (generateContent outcome s)).requestInFlight = false ∧
    (generateContent outcome s).loadingDisplay = "none" := by
  simp [generateContent, generateContentStart, generateContentSettle, session, showLoading,
    hideLoading, updateStats]

/-- C2: when the service answers `success = true` with a post, `generateContent` stores
exactly that post in `currentPost`, shows its three fields, and sets the status to
"Generated for p • s style" for the platform `p` and style `s` of the form. -/
theorem C2_success_stores_post (s : App) (post : Post) (error : Option String) :
    (generateContent
      (FetchOutcome.response (JsonBody.value ⟨true, some post, error⟩)) s).currentPost
      = some post ∧
    (generateContent
      (FetchOutcome.response (JsonBody.value ⟨true, some post, error⟩)) s).statsHTML
      = statsMarkup ("Generated for " ++ s.form.platform ++ " • " ++ s.form.style ++ " style") ∧
    (generateContent
      (FetchOutcome.response (JsonBody.value ⟨true, some post, error⟩)) s).captionText
      = post.caption ∧
    (generateContent
      (FetchOutcome.response (JsonBody.value ⟨true, some post, error⟩)) s).hashtagsText
      = post.hashtags ∧
    (generateContent
      (FetchOutcome.response (JsonBody.value ⟨true, some post, error⟩)) s).imageText
      = post.image_prompt := by
  simp [generateContent, generateContentStart, generateContentSettle, generateContentTry,
    displayResults, showLoading, hideLoading, updateStats]

/-- Witness for C2: platform "instagram", style "casual" and the post {C, #h, P} give the
last result {C, #h, P} and the status "Generated for instagram • casual style". -/
theorem C2_success_stores_post_witness :
    (generateContent sampleSuccess (constructor samplePage)).currentPost
      = some { caption := "C", hashtags := "#h", image_prompt := "P" } ∧
    (generateContent sampleSuccess (constructor samplePage)).statsHTML
      = statsMarkup "Generated for instagram • casual style" :=
  ⟨(C2_success_stores_post (constructor samplePage) ⟨"C", "#h", "P"⟩ none).1,
   (C2_success_stores_post (constructor samplePage) ⟨"C", "#h", "P"⟩ none).2.1⟩

/-- C3: when the service answers `success = false`, `generateContent` leaves `currentPost`
as it was, sets the status to "Generation failed", and shows one error notification whose
message is the response's error string when that is present and non-empty and
"Failed to generate content" otherwise. -/
theorem C3_failure_keeps_post (s : App) (post : Option Post) (error : Option String) :
    (generateContent
      (FetchOutcome.response (JsonBody.value ⟨false, post, error⟩)) s).currentPost
      = s.currentPost ∧
    (generateContent
      (FetchOutcome.response (JsonBody.value ⟨false, post, error⟩)) s).statsHTML
      = statsMarkup "Generation failed" ∧
    (generateContent
      (FetchOutcome.response (JsonBody.value ⟨false, post, error⟩)) s).inputCard
      = s.inputCard ++
        [{ id := s.nextId, tag := "div", className := "error-notification",
           content := errorMarkup
             (if error = none ∨ error = some "" then "Failed to generate content"
              else error.getD "") }] := by
  refine ⟨?_, ?_, ?_⟩
  · simp [generateContent, generateContentStart, generateContentSettle, generateContentTry,
      showError, showLoading, hideLoading, updateStats]
  · simp [generateContent, generateContentStart, generateContentSettle, generateContentTry,
      showError, showLoading, hideLoading, updateStats]
  · cases error with
    | none =>
      simp [generateContent, generateContentStart, generateContentSettle, generateContentTry,
        showError, showLoading, hideLoading, updateStats, errorOrDefault]
    | some m =>
      by_cases hm : m = ""
      · simp [generateContent, generateContentStart, generateContentSettle,
          generateContentTry, showError, showLoading, hideLoading, updateStats,
          errorOrDefault, hm]
      · simp [generateContent, generateContentStart, generateContentSettle,
          generateContentTry, showError, showLoading, hideLoading, updateStats,
          errorOrDefault, hm]

/-- Witness for C3: the error "bad topic" is the reason shown, and the last result of an
earlier generation stays in place. -/
theorem C3_failure_keeps_post_witness :
    (generateContent
      (FetchOutcome.response (JsonBody.value ⟨false, none, some "bad topic"⟩))
      (generateContent sampleSuccess (constructor samplePage))).currentPost
      = some { caption := "C", hashtags := "#h", image_prompt := "P" } ∧
    (generateContent
      (FetchOutcome.response (JsonBody.value ⟨false, none, some "bad topic"⟩))
      (generateContent sampleSuccess (constructor samplePage))).inputCard
      = [{ id := 1, tag := "div", className := "error-notification",
           content := errorMarkup "bad topic" }] :=
  ⟨(C3_failure_keeps_post (generateContent sampleSuccess (constructor samplePage)) none
      (some "bad topic")).1,
   (C3_failure_keeps_post (generateContent sampleSuccess (constructor samplePage)) none
      (some "bad topic")).2.2⟩

/-- C4: when `fetch` rejects, or decoding the body throws (or yields `null`, on which
reading `result.success` throws), `generateContent` leaves `currentPost` as it was, sets the
status to "Connection error", and shows one error notification with the message
"Network error. Please try again.". -/
theorem C4_transport_failure (s : App) :
    ((generateContent FetchOutcome.rejected s).currentPost = s.currentPost ∧
     (generateContent FetchOutcome.rejected s).statsHTML = statsMarkup "Connection error" ∧
     (generateContent FetchOutcome.rejected s).inputCard
       = s.inputCard ++
         [{ id := s.nextId, tag := "div", className := "error-notification",
            content := errorMarkup "Network error. Please try again." }]) ∧
    ((generateContent (FetchOutcome.response JsonBody.invalid) s).currentPost
       = s.currentPost ∧
     (generateContent (FetchOutcome.response JsonBody.invalid) s).statsHTML
       = statsMarkup "Connection error" ∧
     (generateContent (FetchOutcome.response JsonBody.invalid) s).inputCard
       = s.inputCard ++
         [{ id := s.nextId, tag := "div", className := "error-notification",
            content := errorMarkup "Network error. Please try again." }]) ∧
    ((generateContent (FetchOutcome.response JsonBody.null) s).currentPost
       = s.currentPost ∧
     (generateContent (FetchOutcome.response JsonBody.null) s).statsHTML
       = statsMarkup "Connection error" ∧
     (generateContent (FetchOutcome.response JsonBody.null) s).inputCard
       = s.inputCard ++
         [{ id := s.nextId, tag := "div", className := "error-notification",
            content := errorMarkup "Network error. Please try again." }]) := by
  simp [generateContent, generateContentStart, generateContentSettle, generateContentTry,
    generateContentCatch, showError, showLoading, hideLoading, updateStats]

/-- Witness for C4: a rejected `fetch` after an earlier generation keeps that result. -/
theorem C4_transport_failure_witness :
    (generateContent FetchOutcome.rejected
      (generateContent sampleSuccess (constructor samplePage))).currentPost
      = some { caption := "C", hashtags := "#h", image_prompt := "P" } ∧
    (generateContent FetchOutcome.rejected
      (generateContent sampleSuccess (constructor samplePage))).statsHTML
      = statsMarkup "Connection error" :=
  ⟨(C4_transport_failure (generateContent sampleSuccess (constructor samplePage))).1.1,
   (C4_transport_failure (generateContent sampleSuccess (constructor samplePage))).1.2.1⟩

/-- C7, as stated, fails on "returns NotApplicable": the method returns no outcome.  On the
fresh page, with no last result, the call evaluates to `undefined`; after a successful
generation for "dogs" it sends a second request and evaluates to the same `undefined`. -/
theorem C7_regenerate_returns_undefined :
    (constructor samplePage).currentPost = none ∧
    (regenerateContent (constructor samplePage)).2 = JsValue.undefined ∧
    (generateContent sampleSuccess
      (editForm { topic := "dogs", platform := "instagram", style := "casual" }
        (constructor samplePage))).currentPost
      = some { caption := "C", hashtags := "#h", image_prompt := "P" } ∧
    requestsSent
      (regenerateContent (generateContent sampleSuccess
        (editForm { topic := "dogs", platform := "instagram", style := "casual" }
          (constructor samplePage)))).1
      = [{ topic := "dogs", platform := "instagram", style := "casual" },
         { topic := "dogs", platform := "instagram", style := "casual" }] ∧
    (regenerateContent (generateContent sampleSuccess
        (editForm { topic := "dogs", platform := "instagram", style := "casual" }
          (constructor samplePage)))).2
      = (regenerateContent (constructor samplePage)).2 := by
  decide

/-- C7, amended: with no last result, `regenerateContent` sends no request and changes
nothing, the session included: the state after the call is the state before it.  The call
evaluates to `undefined`, as it does from every other state. -/
theorem C7_regenerate_without_result (s other : App) (h : s.currentPost = none) :
    regenerateContent s = (s, JsValue.undefined) ∧
    requestsSent (regenerateContent s).1 = requestsSent s ∧
    session (regenerateContent s).1 = session s ∧
    (regenerateContent other).2 = JsValue.undefined := by
  refine ⟨?_, ?_, ?_, ?_⟩
  · simp [regenerateContent, h]
  · simp [regenerateContent, h]
  · simp [regenerateContent, h]
  · unfold regenerateContent
    split <;> rfl

/-- Witness for the amended C7 on the freshly constructed sample page. -/
theorem C7_regenerate_without_result_witness :
    (constructor samplePage).currentPost = none ∧
    (regenerateContent (constructor samplePage)
       = (constructor samplePage, JsValue.undefined) ∧
     requestsSent (regenerateContent (constructor samplePage)).1
       = requestsSent (constructor samplePage) ∧
     session (regenerateContent (constructor samplePage)).1
       = session (constructor samplePage) ∧
     (regenerateContent (generateContent sampleSuccess (constructor samplePage))).2
       = JsValue.undefined) :=
  ⟨rfl, C7_regenerate_without_result (constructor samplePage)
    (generateContent sampleSuccess (constructor samplePage)) rfl⟩

/-- C10: `newContent` is idempotent, on the whole state and so on the session; from a state
with no request in flight it yields last result absent, in-flight false and status
"Ready to generate", which is also the session the constructor sets up on a page whose
generate button is enabled. -/
theorem C10_newContent_idempotent (s page : App) (hs : s.generateBtnDisabled = false)
    (hp : page.generateBtnDisabled = false) :
    newContent (newContent s) = newContent s ∧
    session (newContent (newContent s)) = session (newContent s) ∧
    session (newContent s)
      = { lastResult := none, requestInFlight := false,
          statusMessage := statsMarkup "Ready to generate" } ∧
    session (constructor page) = session (newContent s) := by
  simp [newContent, session, constructor, init, bindEvents, updateStats, hs, hp]

/-- Witness for C10: a session that holds a result, reset twice. -/
theorem C10_newContent_idempotent_witness :
    (generateContent
      (FetchOutcome.response (JsonBody.value ⟨true, some ⟨"C", "#h", "P"⟩, none⟩))
      (constructor samplePage)).generateBtnDisabled = false ∧
    samplePage.generateBtnDisabled = false ∧
    (newContent (newContent (generateContent
      (FetchOutcome.response (JsonBody.value ⟨true, some ⟨"C", "#h", "P"⟩, none⟩))
      (constructor samplePage)))
      = newContent (generateContent
      (FetchOutcome.response (JsonBody.value ⟨true, some ⟨"C", "#h", "P"⟩, none⟩))
      (constructor samplePage)) ∧
     session (newContent (newContent (generateContent
      (FetchOutcome.response (JsonBody.value ⟨true, some ⟨"C", "#h", "P"⟩, none⟩))
      (constructor samplePage))))
      = session (newContent (generateContent
      (FetchOutcome.response (JsonBody.value ⟨true, some ⟨"C", "#h", "P"⟩, none⟩))
      (constructor samplePage))) ∧
     session (newContent (generateContent
      (FetchOutcome.response (JsonBody.value ⟨true, some ⟨"C", "#h", "P"⟩, none⟩))
      (constructor samplePage)))
      = { lastResult := none, requestInFlight := false,
          statusMessage := statsMarkup "Ready to generate" } ∧
     session (constructor samplePage)
      = session (newContent (generateContent
      (FetchOutcome.response (JsonBody.value ⟨true, some ⟨"C", "#h", "P"⟩, none⟩))
      (constructor samplePage)))) :=
  ⟨rfl, rfl, C10_newContent_idempotent _ _ rfl rfl⟩

/-- Every run of `generateContent` hands exactly one request to `fetch`, built from the
values the form holds at the call. -/
theorem requestsSent_generateContent (outcome : FetchOutcome) (s : App) :
    requestsSent (generateContent outcome s) = requestsSent s ++ [s.form] := by
  rcases outcome with _ | body
  · simp [generateContent, generateContentStart, generateContentSettle, generateContentTry,
      generateContentCatch, showError, showLoading, hideLoading, updateStats, requestsSent,
      List.filterMap_append]
  · rcases body with _ | _ | ⟨success, post, error⟩
    · simp [generateContent, generateContentStart, generateContentSettle,
        generateContentTry, generateContentCatch, showError, showLoading, hideLoading,
        updateStats, requestsSent, List.filterMap_append]
    · simp [generateContent, generateContentStart, generateContentSettle,
        generateContentTry, generateContentCatch, showError, showLoading, hideLoading,
        updateStats, requestsSent, List.filterMap_append]
    · cases success <;> cases post <;>
        simp [generateContent, generateContentStart, generateContentSettle,
          generateContentTry, generateContentCatch, displayResults, showError, showLoading,
          hideLoading, updateStats, requestsSent, List.filterMap_append]

/-- No run of `generateContent` writes to the form. -/
theorem form_generateContent (outcome : FetchOutcome) (s : App) :
    (generateContent outcome s).form = s.form := by
  rcases outcome with _ | body
  · rfl
  · rcases body with _ | _ | ⟨success, post, error⟩
    · rfl
    · rfl
    · cases success <;> cases post <;> rfl

/-! ## Regeneration and validation -/

/-- With a last result present, `regenerateContent` sends one request, built from the
values the form holds when it is called. -/
theorem requestsSent_regenerateContent (s : App) (h : s.currentPost.isSome = true) :
    requestsSent (regenerateContent s).1 = requestsSent s ++ [s.form] := by
  simp [regenerateContent, h, generateContentStart, requestsSent, showLoading, updateStats,
    List.filterMap_append]

/-- C8: the code departs from the claim, and from its own comment "Use the same parameters
but regenerate".  After a successful submit for "dogs" on instagram in casual style and an
edit of the form to "cats" on twitter in funny style, `regenerateContent` sends the edited
values, not the parameters of the most recently submitted request. -/
theorem C8_regenerate_reads_edited_form :
    editedAfterSubmit.currentPost
      = some { caption := "C", hashtags := "#h", image_prompt := "P" } ∧
    (requestsSent editedAfterSubmit).getLast?
      = some { topic := "dogs", platform := "instagram", style := "casual" } ∧
    requestsSent (regenerateContent editedAfterSubmit).1
      = [{ topic := "dogs", platform := "instagram", style := "casual" },
         { topic := "cats", platform := "twitter", style := "funny" }] ∧
    (requestsSent (regenerateContent editedAfterSubmit).1).getLast?
      ≠ (requestsSent editedAfterSubmit).getLast? := by
  decide

/-- C9, as stated, fails: a form whose platform and style are outside the enumerated sets
(here the sets holding "instagram" and "casual") is sent to the service unchanged. -/
theorem C9_unlisted_values_forwarded :
    unlistedRequestPage.form.platform ∉ ["instagram"] ∧
    unlistedRequestPage.form.style ∉ ["casual"] ∧
    requestsSent unlistedRequestPage = [] ∧
    requestsSent (generateContent sampleSuccess unlistedRequestPage)
      = [{ topic := "launch", platform := "not-a-platform", style := "not-a-style" }] := by
  decide

/-- C9, amended: `generateContent` checks neither platform nor style; whatever the form
holds, and however the call settles, it sends exactly one request carrying the form's
topic, platform and style unchanged. -/
theorem C9_generate_forwards_form (s : App) (outcome : FetchOutcome) :
    (generateContentStart s).2 = s.form ∧
    (generateContentStart s).1.log
      = s.log ++ [Effect.fetch "/api/generate" "POST" "application/json" s.form] ∧
    requestsSent (generateContent outcome s) = requestsSent s ++ [s.form] :=
  ⟨rfl, rfl, requestsSent_generateContent outcome s⟩

/-! ## The clipboard copier -/

/-- C5, as stated, fails: after a generation and `newContent()` there is no last result, yet
`copyContent('hashtags')` hands the text still held by `#hashtagsText` to the clipboard and
marks the button as copied. -/
theorem C5_copy_without_result_writes :
    afterReset.currentPost = none ∧
    (copyContent "hashtags" ClipboardOutcome.resolves true afterReset).rejected = false ∧
    textsWritten (copyContent "hashtags" ClipboardOutcome.resolves true afterReset).app
      = ["#h"] ∧
    (copyContent "hashtags" ClipboardOutcome.resolves true afterReset).app.clipboard = "#h" ∧
    findCopyBtn "hashtags"
      (copyContent "hashtags" ClipboardOutcome.resolves true afterReset).app.copyBtns
      = some { dataCopy := "hashtags", innerHTML := "<i class=\"fas fa-check\"></i> Copied!",
               background := "var(--success)" } := by
  decide

/-- C5, amended: `copyContent` never reads `currentPost`: run with any other value in that
field it does the same, and it leaves the field as it was, here absent.  With no last result
it still hands the text held by the field's element to the clipboard: `writeText` is called
with it when `navigator.clipboard` exists, and the legacy command is run on it when
`writeText` is missing or rejects.  When the page has the field's copy button, the call
settles without an error, that button is marked as copied, and the legacy command is run
only when `writeText` did not resolve.  (Without such a button nothing is marked and the
promise rejects.) -/
theorem C5_copy_without_result (s : App) (type : String) (clip : ClipboardOutcome)
    (execOk : Bool) (post : Option Post) (hnone : s.currentPost = none) :
    copyContent type clip execOk { s with currentPost := post }
      = { app := { (copyContent type clip execOk s).app with currentPost := post }
          rejected := (copyContent type clip execOk s).rejected } ∧
    (copyContent type clip execOk s).app.currentPost = none ∧
    (textsWritten (copyContent type ClipboardOutcome.resolves execOk s).app
       = textsWritten s ++ [copyText type s] ∧
     (copyContent type ClipboardOutcome.resolves execOk s).app.clipboard
       = copyText type s) ∧
    (textsWritten (copyContent type ClipboardOutcome.rejects execOk s).app
       = textsWritten s ++ [copyText type s] ∧
     selectionsCopied (copyContent type ClipboardOutcome.rejects execOk s).app
       = selectionsCopied s ++ [copyText type s]) ∧
    (textsWritten (copyContent type ClipboardOutcome.unavailable execOk s).app
       = textsWritten s ∧
     selectionsCopied (copyContent type ClipboardOutcome.unavailable execOk s).app
       = selectionsCopied s ++ [copyText type s]) ∧
    (∀ btn, findCopyBtn type s.copyBtns = some btn →
      (copyContent type clip execOk s).rejected = false ∧
      findCopyBtn type (copyContent type clip execOk s).app.copyBtns
        = some (copiedBtn btn) ∧
      (copyContent type ClipboardOutcome.resolves execOk s).app.log
        = s.log ++ [Effect.writeText (copyText type s)] ∧
      (copyContent type ClipboardOutcome.rejects execOk s).app.log
        = s.log ++ [Effect.writeText (copyText type s),
                    Effect.execCommandCopy (copyText type s)] ∧
      (copyContent type ClipboardOutcome.unavailable execOk s).app.log
        = s.log ++ [Effect.execCommandCopy (copyText type s)]) ∧
    (findCopyBtn type s.copyBtns = none →
      (copyContent type clip execOk s).rejected = true ∧
      (copyContent type clip execOk s).app.copyBtns = s.copyBtns) := by
  refine ⟨?_, ?_, ?_, ?_, ?_, ?_, ?_⟩
  · cases clip <;> cases hfind : findCopyBtn type s.copyBtns <;>
      simp [copyContent, copyContentCatch, showCopySuccess, fallbackCopy, copyText, hfind]
  · cases clip <;> cases hfind : findCopyBtn type s.copyBtns <;>
      simp [copyContent, copyContentCatch, showCopySuccess, fallbackCopy, hfind, hnone]
  · cases hfind : findCopyBtn type s.copyBtns <;>
      simp [copyContent, copyContentCatch, showCopySuccess, fallbackCopy, textsWritten,
        List.filterMap_append, hfind]
  · cases hfind : findCopyBtn type s.copyBtns <;>
      simp [copyContent, copyContentCatch, showCopySuccess, fallbackCopy, textsWritten,
        selectionsCopied, List.filterMap_append, hfind]
  · cases hfind : findCopyBtn type s.copyBtns <;>
      simp [copyContent, copyContentCatch, showCopySuccess, fallbackCopy, textsWritten,
        selectionsCopied, List.filterMap_append, hfind]
  · intro btn hbtn
    refine ⟨?_, ?_, ?_, ?_, ?_⟩
    · cases clip <;>
        simp [copyContent, copyContentCatch, showCopySuccess, fallbackCopy, hbtn]
    · cases clip
      · obtain ⟨s1, hrun, -, -, -, -, hfind⟩ := showCopySuccess_of_find type
          (fallbackCopy (copyText type s) execOk s) btn hbtn
        simp only [copyContent, copyContentCatch, hrun]
        exact hfind
      · obtain ⟨s1, hrun, -, -, -, -, hfind⟩ := showCopySuccess_of_find type
          (fallbackCopy (copyText type s) execOk
            { s with log := s.log ++ [Effect.writeText (copyText type s)] }) btn hbtn
        simp only [copyContent, copyContentCatch, hrun]
        exact hfind
      · obtain ⟨s1, hrun, -, -, -, -, hfind⟩ := showCopySuccess_of_find type
          { s with
            log := s.log ++ [Effect.writeText (copyText type s)]
            clipboard := copyText type s } btn hbtn
        simp only [copyContent, hrun]
        exact hfind
    · simp [copyContent, showCopySuccess, hbtn]
    · simp [copyContent, copyContentCatch, showCopySuccess, fallbackCopy, hbtn]
    · simp [copyContent, copyContentCatch, showCopySuccess, fallbackCopy, hbtn]
  · intro hfind
    cases clip <;>
      simp [copyContent, copyContentCatch, showCopySuccess, fallbackCopy, hfind]

/-- Witness for the amended C5 on the page after a reset: the stale hashtags reach the
clipboard and the button is marked. -/
theorem C5_copy_without_result_witness :
    afterReset.currentPost = none ∧
    (copyContent "hashtags" ClipboardOutcome.resolves true afterReset).app.clipboard
      = copyText "hashtags" afterReset ∧
    ((copyContent "hashtags" ClipboardOutcome.resolves true afterReset).rejected = false ∧
     findCopyBtn "hashtags"
       (copyContent "hashtags" ClipboardOutcome.resolves true afterReset).app.copyBtns
       = some (copiedBtn { dataCopy := "hashtags", innerHTML := "Copy", background := "" })) :=
  ⟨by decide,
   (C5_copy_without_result afterReset "hashtags" ClipboardOutcome.resolves true none
     (by decide)).2.2.1.2,
   ⟨((C5_copy_without_result afterReset "hashtags" ClipboardOutcome.resolves true none
       (by decide)).2.2.2.2.2.1
       { dataCopy := "hashtags", innerHTML := "Copy", background := "" } (by decide)).1,
    ((C5_copy_without_result afterReset "hashtags" ClipboardOutcome.resolves true none
       (by decide)).2.2.2.2.2.1
       { dataCopy := "hashtags", innerHTML := "Copy", background := "" } (by decide)).2.1⟩⟩

/-- C6: when `navigator.clipboard.writeText` is missing or rejects, `copyContent` runs the
legacy copy command exactly once, settles without an error and marks the field's button as
copied; the textarea it appended to the body has been removed again, so the body has the
children it had before the call. -/
theorem C6_fallback_once_no_residue (s : App) (type : String) (execOk : Bool)
    (btn : CopyBtn) (hfresh : ∀ n ∈ s.body, n.id < s.nextId)
    (hbtn : findCopyBtn type s.copyBtns = some btn) :
    ((copyContent type ClipboardOutcome.rejects execOk s).rejected = false ∧
     execCopyCount (copyContent type ClipboardOutcome.rejects execOk s).app
       = execCopyCount s + 1 ∧
     findCopyBtn type (copyContent type ClipboardOutcome.rejects execOk s).app.copyBtns
       = some (copiedBtn btn) ∧
     (copyContent type ClipboardOutcome.rejects execOk s).app.body = s.body) ∧
    ((copyContent type ClipboardOutcome.unavailable execOk s).rejected = false ∧
     execCopyCount (copyContent type ClipboardOutcome.unavailable execOk s).app
       = execCopyCount s + 1 ∧
     findCopyBtn type (copyContent type ClipboardOutcome.unavailable execOk s).app.copyBtns
       = some (copiedBtn btn) ∧
     (copyContent type ClipboardOutcome.unavailable execOk s).app.body = s.body) := by
  refine ⟨?_, ?_⟩
  · have hfb := fallbackCopy_spec (copyText type s) execOk
      { s with log := s.log ++ [Effect.writeText (copyText type s)] } hfresh
    obtain ⟨s1, hrun, hlog, hbody, -, -, hfind⟩ := showCopySuccess_of_find type
      (fallbackCopy (copyText type s) execOk
        { s with log := s.log ++ [Effect.writeText (copyText type s)] }) btn hbtn
    simp only [copyContent, copyContentCatch, hrun]
    refine ⟨trivial, ?_, hfind, hbody.trans hfb.1⟩
    simp [execCopyCount, hlog, hfb.2.1, List.countP_append]
  · have hfb := fallbackCopy_spec (copyText type s) execOk s hfresh
    obtain ⟨s1, hrun, hlog, hbody, -, -, hfind⟩ := showCopySuccess_of_find type
      (fallbackCopy (copyText type s) execOk s) btn hbtn
    simp only [copyContent, copyContentCatch, hrun]
    refine ⟨trivial, ?_, hfind, hbody.trans hfb.1⟩
    simp [execCopyCount, hlog, hfb.2.1, List.countP_append]

/-- Witness for C6 on the sample page, for the caption field. -/
theorem C6_fallback_once_no_residue_witness :
    (∀ n ∈ samplePage.body, n.id < samplePage.nextId) ∧
    findCopyBtn "caption" samplePage.copyBtns
      = some { dataCopy := "caption", innerHTML := "Copy", background := "" } ∧
    (copyContent "caption" ClipboardOutcome.rejects true samplePage).rejected = false ∧
    execCopyCount (copyContent "caption" ClipboardOutcome.rejects true samplePage).app = 1 ∧
    (copyContent "caption" ClipboardOutcome.rejects true samplePage).app.body
      = [{ id := 0, tag := "div", className := "container", content := "" }] :=
  ⟨by decide, by decide,
   (C6_fallback_once_no_residue samplePage "caption" true
     { dataCopy := "caption", innerHTML := "Copy", background := "" }
     (by decide) (by decide)).1.1,
   (C6_fallback_once_no_residue samplePage "caption" true
     { dataCopy := "caption", innerHTML := "Copy", background := "" }
     (by decide) (by decide)).1.2.1,
   (C6_fallback_once_no_residue samplePage "caption" true
     { dataCopy := "caption", innerHTML := "Copy", background := "" }
     (by decide) (by decide)).1.2.2.2⟩

end JacAI
